import Mathlib

/-!
Shallow embedding of `base_data_handler.py` (class `BaseDataHandler`, a thin
pandas wrapper).  A pandas `DataFrame` is modelled as a list of named columns
together with a row list; every row carries its integer index label, so the
index travels with the row through sorting/filtering exactly as in pandas.
Scalar cells are `na` (NaN / missing), exact rationals (pandas floats are
modelled as `ℚ`), or strings.  Each Python `try_*` method wraps its body in
`try/except Exception` and returns a `(success, error-or-None)` pair; the body
is modelled as an `Except String` computation (the `.error` constructor is a
raised Python exception) and the wrapper converts it into a `TryRes` pair.
Methods that are not wrapped (`get_lines`, the `df` property) keep the
`Except` type: an `.error` there is an exception escaping to the caller.
-/

deriving instance DecidableEq for Except

/-- Scalar cell of a dataframe: missing (NaN), numeric, or string. -/
inductive Cell
  | na
  | num (q : ℚ)
  | str (s : String)
deriving DecidableEq

/-- Row of cells, ordered like the column-name list of its dataframe. -/
abbrev Row := List Cell

/-- Dataframe: ordered column names and rows; each row is paired with its
integer index label (pandas index), which travels with the row. -/
structure DF where
  colNames : List String
  rows : List (Int × Row)
deriving DecidableEq

/-- Python `BaseDataHandler` object: the `file_path` attribute and the private
`__df` attribute; `df? = none` models the state where `__df` was never
assigned (construction failed), in which case reading `self.df` raises
`AttributeError`. -/
structure BaseDataHandler where
  file_path : Option String
  df? : Option DF
deriving DecidableEq

/-- Result pair of a `try_*` method: `(success, error-description-or-None)`. -/
structure TryRes where
  ok : Bool
  err : Option String
deriving DecidableEq

/-- Number of columns of a dataframe. -/
def DF.ncols (d : DF) : Nat := d.colNames.length

/-- Cell at row `i`, column position `j` (missing marker when out of range). -/
def DF.cell (d : DF) (i j : Nat) : Cell := ((d.rows.getD i (0, [])).2).getD j .na

/-- Cells of the column at position `j`, top to bottom. -/
def DF.colCells (d : DF) (j : Nat) : List Cell := d.rows.map (fun p => p.2.getD j .na)

/-- Check whether a cell is the missing marker. -/
def Cell.isNa : Cell → Bool
  | .na => true
  | _ => false

/-- Check whether a cell is numeric. -/
def Cell.isNum : Cell → Bool
  | .num _ => true
  | _ => false

/-- Check whether a cell is a string. -/
def Cell.isStr : Cell → Bool
  | .str _ => true
  | _ => false

/-- Column at position `j` has numeric dtype: every cell is missing or a
number (pandas infers a float dtype for such a column). -/
def DF.numericCol (d : DF) (j : Nat) : Bool := (d.colCells j).all (fun c => c.isNa || c.isNum)

/-- Reading the `self.df` property: raises `AttributeError` when `__df` was
never assigned, otherwise returns the stored dataframe. -/
def BaseDataHandler.getDf (h : BaseDataHandler) : Except String DF :=
  match h.df? with
  | some d => .ok d
  | none => .error "AttributeError: BaseDataHandler object has no attribute __df"

/-- Wrapper for the `try ... except Exception as e` pattern around a body that
reassigns `self.__df`: on success the new dataframe is swapped in and
`(True, None)` is returned, on a raised exception the handler is untouched
and `(False, e)` is returned. -/
def pyTry (h : BaseDataHandler) (body : Except String DF) : BaseDataHandler × TryRes :=
  match body with
  | .ok d => ({ h with df? := some d }, ⟨true, none⟩)
  | .error e => (h, ⟨false, some e⟩)

/-- Source line `self.df.head(amount)`: first `n` rows. -/
def DF.headPd (n : Nat) (d : DF) : DF := ⟨d.colNames, d.rows.take n⟩

/-- Source line `self.df.tail(amount)`: pandas `tail` keeps the last `n` rows
for `n > 0`, is empty for `n = 0`, and for negative `n` returns all rows
EXCEPT the first `|n|` (documented pandas behaviour of `tail`). -/
def DF.tailPd (n : Int) (d : DF) : DF :=
  if 0 < n then ⟨d.colNames, d.rows.drop (d.rows.length - n.toNat)⟩
  else if n = 0 then ⟨d.colNames, []⟩
  else ⟨d.colNames, d.rows.drop (-n).toNat⟩

/-- Method `get_lines(amount=5)`: `self.df.head(amount) if amount > 0 else
self.df.tail(amount)`.  Not wrapped in `try/except`: an exception from the
`df` property propagates to the caller (modelled by `.error`). -/
def get_lines (h : BaseDataHandler) (amount : Int) : Except String DF :=
  match h.getDf with
  | .error e => .error e
  | .ok d => .ok (if 0 < amount then d.headPd amount.toNat else d.tailPd amount)

/-- Method `try_update_df(df)`: adopt the given dataframe, else read the CSV
at `self.file_path`.  The filesystem is a parameter `fs` mapping a path to the
parsed dataframe (`none` = missing/unreadable/malformed, making `read_csv`
raise).  `read_csv(None)` raises a `ValueError`. -/
def try_update_df (fs : String → Option DF) (h : BaseDataHandler) (df : Option DF) :
    BaseDataHandler × TryRes :=
  pyTry h (match df with
    | some d => .ok d
    | none =>
      match h.file_path with
      | none => .error "ValueError: Invalid file path or buffer object type: NoneType"
      | some p =>
        match fs p with
        | some d => .ok d
        | none => .error ("FileNotFoundError: No such file or directory: " ++ p))

/-- Constructor `BaseDataHandler(path, df)`: store `file_path`, call
`try_update_df(df)`, and print (report) the error on failure.  The second
component is the reported error (`none` when construction succeeded).  The
handler object always exists. -/
def mkBaseDataHandler (fs : String → Option DF) (path : Option String) (df : Option DF) :
    BaseDataHandler × Option String :=
  let h0 : BaseDataHandler := ⟨path, none⟩
  let r := try_update_df fs h0 df
  (r.1, r.2.err)

/-- Total comparison derived from a linear order (used for `ℚ` and `String`
cells, mirroring numpy comparisons during a sort). -/
def cmpO {α : Type} [LinearOrder α] (a b : α) : Ordering :=
  if a < b then .lt else if b < a then .gt else .eq

/-- Comparison of two non-missing cells as numpy compares them; a numeric and
a string cell are never actually compared by the theorems below (pandas would
raise `TypeError`; `sortValues` refuses such columns up front). -/
def baseCmp : Cell → Cell → Ordering
  | .na, .na => .eq
  | .na, _ => .gt
  | _, .na => .lt
  | .num a, .num b => cmpO a b
  | .str a, .str b => cmpO a b
  | .num _, .str _ => .lt
  | .str _, .num _ => .gt

/-- Directed cell comparison for `sort_values`: missing values sort last
regardless of direction (pandas `na_position=last` default), other cells
compare in the given direction. -/
def cmpCell (asc : Bool) (a b : Cell) : Ordering :=
  match a, b with
  | .na, .na => .eq
  | .na, _ => .gt
  | _, .na => .lt
  | _, _ => if asc then baseCmp a b else baseCmp b a

/-- Lexicographic row comparison along a list of (column position, direction)
sort keys, as `sort_values(by=cols, ascending=ascending)` orders rows. -/
def cmpRow (ks : List (Nat × Bool)) (r1 r2 : Row) : Ordering :=
  match ks with
  | [] => .eq
  | k :: rest =>
    match cmpCell k.2 (r1.getD k.1 .na) (r2.getD k.1 .na) with
    | .eq => cmpRow rest r1 r2
    | o => o

/-- Row-with-index ordering used to sort the row list. -/
def rowLe (ks : List (Nat × Bool)) (a b : Int × Row) : Prop := cmpRow ks a.2 b.2 ≠ .gt

instance (ks : List (Nat × Bool)) : DecidableRel (rowLe ks) := by
  intro a b
  unfold rowLe
  infer_instance

/-- Sort-key positions for the given columns and directions in dataframe `d`. -/
def sortKeys (d : DF) (cols : List String) (asc : List Bool) : List (Nat × Bool) :=
  (cols.map (fun c => d.colNames.indexOf c)).zip asc

/-- Column at position `j` is homogeneously typed (all numeric-or-missing or
all string-or-missing); sorting a mixed column raises `TypeError` in pandas. -/
def DF.homogCol (d : DF) (j : Nat) : Bool :=
  (d.colCells j).all (fun c => c.isNa || c.isNum) || (d.colCells j).all (fun c => c.isNa || c.isStr)

/-- Model of `self.df.sort_values(by=cols, ascending=ascending)`: raises on an
unknown column (`KeyError`), on a direction list of mismatched length
(`ValueError`), or on a mixed-type sort column (`TypeError`); otherwise sorts
the rows (index labels travelling with their rows).  Tie order among equal
keys is not specified by pandas (default `quicksort` is unstable); this model
uses a stable insertion sort, and no theorem below depends on tie order. -/
def sortValues (d : DF) (cols : List String) (asc : List Bool) : Except String DF :=
  if ¬ (cols.all (fun c => d.colNames.contains c)) then
    .error "KeyError: columns not found in axis"
  else if asc.length ≠ cols.length then
    .error "ValueError: Length of ascending must equal length of by"
  else if ¬ (cols.all (fun c => d.homogCol (d.colNames.indexOf c))) then
    .error "TypeError: unorderable types in sort"
  else
    .ok ⟨d.colNames, List.insertionSort (rowLe (sortKeys d cols asc)) d.rows⟩

/-- Attach a fresh integer index `n, n+1, ...` to a list of rows. -/
def indexFrom (n : Nat) : List Row → List (Int × Row)
  | [] => []
  | r :: rs => ((n : Int), r) :: indexFrom (n + 1) rs

/-- Model of `.reset_index()` on a dataframe with a plain integer index: the
old index becomes a new first column (named `index`, or `level_0` when a
column `index` already exists; raises when that name exists too) and the index
is reset to the fresh range `0..N-1`. -/
def resetIndex (d : DF) : Except String DF :=
  let nm := if d.colNames.contains "index" then "level_0" else "index"
  if d.colNames.contains nm then
    .error ("ValueError: cannot insert " ++ nm ++ ", already exists")
  else
    .ok ⟨nm :: d.colNames, indexFrom 0 (d.rows.map (fun p => Cell.num (p.1 : ℚ) :: p.2))⟩

/-- Method `try_order_by(cols, ascending)`: `self.__df =
self.df.sort_values(by=cols, ascending=ascending).reset_index()` inside
`try/except`.  A scalar `ascending=True` in Python corresponds to passing
`List.replicate cols.length true`. -/
def try_order_by (h : BaseDataHandler) (cols : List String) (asc : List Bool) :
    BaseDataHandler × TryRes :=
  pyTry h (do
    let d ← h.getDf
    let d1 ← sortValues d cols asc
    resetIndex d1)

/-- Mean of the column at position `j` over its non-missing values, as
`df.mean(numeric_only=True)` computes it for a numeric column: `none` when
the column has no numeric values (pandas yields NaN, which fills nothing). -/
def DF.colMean (d : DF) (j : Nat) : Option ℚ :=
  let vs := (d.colCells j).filterMap (fun c => match c with | .num q => some q | _ => none)
  if vs.isEmpty then none else some (vs.sum / (vs.length : ℚ))

/-- Fill value that `fillna(self.df.mean(numeric_only=True))` uses for column
`j`: the pre-fill mean for a numeric column with at least one value, nothing
for a non-numeric column (absent from the mean series) or an all-missing one
(mean NaN, fills nothing). -/
def DF.meanFill (d : DF) (j : Nat) : Option ℚ :=
  if d.numericCol j then d.colMean j else none

/-- Helper replacing each cell using its column position (a list `mapIdx`
specialised to cells, with explicit start index). -/
def mapCellsFrom (f : Nat → Cell → Cell) (k : Nat) : Row → Row
  | [] => []
  | c :: r => f k c :: mapCellsFrom f (k + 1) r

/-- Model of `self.df.fillna(0)`: every missing cell of every column becomes
the number `0` (pandas fills object columns with `0` as well). -/
def fillnaZero (d : DF) : DF :=
  ⟨d.colNames, d.rows.map (fun p => (p.1, p.2.map (fun c => if c.isNa then .num 0 else c)))⟩

/-- Model of `self.df.fillna(self.df.mean(numeric_only=True))`: missing cells
of numeric columns become the pre-fill column mean; other cells unchanged. -/
def fillnaMean (d : DF) : DF :=
  ⟨d.colNames,
   d.rows.map (fun p =>
     (p.1, mapCellsFrom (fun j c =>
       if c.isNa then
         match d.meanFill j with
         | some m => .num m
         | none => c
       else c) 0 p.2))⟩

/-- Method `try_fill_nan(use_mean=True)`: `self.__df = self.df.fillna(0 if
use_mean else self.df.mean(numeric_only=True))` inside `try/except`.  NOTE
the inversion in the source: `use_mean = True` fills with `0`. -/
def try_fill_nan (h : BaseDataHandler) (use_mean : Bool) : BaseDataHandler × TryRes :=
  pyTry h (do
    let d ← h.getDf
    .ok (if use_mean then fillnaZero d else fillnaMean d))

/-- Assignment `self.__df[target_col] = vals`: overwrite the column when the
name exists, otherwise append it on the right. -/
def assignCol (d : DF) (target : String) (vals : List Cell) : DF :=
  if d.colNames.contains target then
    ⟨d.colNames,
     (d.rows.zip vals).map (fun p =>
       (p.1.1, mapCellsFrom (fun j c => if d.colNames.getD j "" = target then p.2 else c) 0 p.1.2))⟩
  else
    ⟨d.colNames ++ [target], (d.rows.zip vals).map (fun p => (p.1.1, p.1.2 ++ [p.2]))⟩

/-- Method `try_add_col(target_col, criteria, axis=1)`: `self.__df[target_col]
= self.df.apply(criteria, axis=axis)` inside `try/except`.  The `criteria`
callable receives a row (`axis = 1`) or a column (`axis = 0`) as a cell list
and may raise (`.error`).  With `axis = 0` the resulting series is indexed by
the column labels, so assigning it aligns with no row label and produces an
all-missing column; any other axis raises `ValueError`. -/
def try_add_col (h : BaseDataHandler) (target : String) (criteria : List Cell → Except String Cell)
    (axis : Int) : BaseDataHandler × TryRes :=
  pyTry h (do
    let d ← h.getDf
    if axis = 1 then do
      let vals ← (d.rows.map (fun p => p.2)).mapM criteria
      .ok (assignCol d target vals)
    else if axis = 0 then do
      let _ ← (List.range d.ncols).mapM (fun j => criteria (d.colCells j))
      .ok (assignCol d target (d.rows.map (fun _ => Cell.na)))
    else
      .error "ValueError: No axis named for object type DataFrame")

/-- Duplicate-row removal keeping first occurrences (`drop_duplicates`
compares all columns; the index label of the kept occurrence survives). -/
def dedupRows : List (Int × Row) → List Row → List (Int × Row)
  | [], _ => []
  | p :: rest, seen =>
    if p.2 ∈ seen then dedupRows rest seen else p :: dedupRows rest (p.2 :: seen)

/-- Method `try_remove_duplicates()`: `self.__df = self.df.drop_duplicates()`
inside `try/except`. -/
def try_remove_duplicates (h : BaseDataHandler) : BaseDataHandler × TryRes :=
  pyTry h (do
    let d ← h.getDf
    .ok ⟨d.colNames, dedupRows d.rows []⟩)

/-- Check whether `pat` is an initial segment of `s`. -/
def startsWith : List Char → List Char → Bool
  | _, [] => true
  | [], _ :: _ => false
  | c :: cs, p :: ps => c = p && startsWith cs ps

/-- Check whether `pat` occurs as a contiguous substring of `s`. -/
def containsSub (s pat : List Char) : Bool :=
  match s with
  | [] => pat.isEmpty
  | _ :: rest => startsWith s pat || containsSub rest pat

/-- Model of Python `str.replace(old, new)` on character lists for a non-empty
`old`: every non-overlapping occurrence is replaced, scanning left to right
and continuing after the inserted replacement text.  The extra counter skips
the characters consumed by a matched occurrence (structural recursion on the
string). -/
def pyReplaceAux (pat rep : List Char) : Nat → List Char → List Char
  | _, [] => []
  | 0, c :: rest =>
    if pat ≠ [] ∧ startsWith (c :: rest) pat then
      rep ++ pyReplaceAux pat rep (pat.length - 1) rest
    else
      c :: pyReplaceAux pat rep 0 rest
  | skip + 1, _ :: rest => pyReplaceAux pat rep skip rest

/-- Python `self.file_path.replace(".csv", "_new.csv")`: the output path used
by `try_save` (note: Python `replace` substitutes EVERY occurrence). -/
def savePath (p : String) : String :=
  ⟨pyReplaceAux ".csv".data "_new.csv".data 0 p.data⟩

/-- Modelled from the spec: the output-path derivation as §6 of the spec words
it, replacing only the FIRST occurrence of `.csv` (to be compared with the
source-faithful `savePath`). -/
def specSavePathAux (pat rep : List Char) : List Char → List Char
  | [] => []
  | c :: rest =>
    if startsWith (c :: rest) pat then rep ++ (c :: rest).drop pat.length
    else c :: specSavePathAux pat rep rest

/-- Modelled from the spec: replace only the first `.csv` in the path. -/
def specSavePath (p : String) : String :=
  ⟨specSavePathAux ".csv".data "_new.csv".data p.data⟩

/-- Serialized CSV produced by `self.df.to_csv(path)`: pandas writes the index
as an extra unnamed leading column (default `index=True`). -/
structure Csv where
  header : List String
  body : List (List Cell)
deriving DecidableEq

/-- Model of `DataFrame.to_csv` content: header is an empty name (the index
column) followed by the column names; every row starts with its index label. -/
def toCsv (d : DF) : Csv :=
  ⟨"" :: d.colNames, d.rows.map (fun p => Cell.num (p.1 : ℚ) :: p.2)⟩

/-- Method `try_save()`: derive the output path from `self.file_path` via
`replace(".csv", "_new.csv")`, then `self.df.to_csv(new_file_path)`, all
inside `try/except`.  `file_path = None` raises `AttributeError` at the
`replace` call; the writability of the target path is a parameter `writable`
(an unwritable path makes `to_csv` raise `OSError`).  The third component is
the file actually written (`none` on failure); the handler dataframe is never
reassigned by this method. -/
def try_save (writable : String → Bool) (h : BaseDataHandler) :
    BaseDataHandler × TryRes × Option (String × Csv) :=
  match h.file_path with
  | none => (h, ⟨false, some "AttributeError: NoneType object has no attribute replace"⟩, none)
  | some p =>
    let np := savePath p
    match h.df? with
    | none => (h, ⟨false, some "AttributeError: BaseDataHandler object has no attribute __df"⟩,
               none)
    | some d =>
      if writable np then (h, ⟨true, none⟩, some (np, toCsv d))
      else (h, ⟨false, some ("OSError: Cannot save file into a non-existent directory: " ++ np)⟩,
            none)

/-- Row predicate of `dropna(subset=cols)`: the row has a missing value in
some column whose name belongs to `cols`. -/
def rowHasNaIn (d : DF) (cols : List String) (r : Row) : Bool :=
  (List.range d.ncols).any (fun j => cols.contains (d.colNames.getD j "") && (r.getD j .na).isNa)

/-- Model of `self.df.dropna(subset=cols)`: raises `KeyError` on an unknown
column, otherwise keeps the rows with no missing value in the `cols`
columns. -/
def dropRowsNa (d : DF) (cols : List String) : Except String DF :=
  if ¬ (cols.all (fun c => d.colNames.contains c)) then
    .error "KeyError: columns not found in axis"
  else
    .ok ⟨d.colNames, d.rows.filter (fun p => !(rowHasNaIn d cols p.2))⟩

/-- Model of `dropna(axis=1, how=all)`: drop every column whose remaining
cells are all missing (with zero rows every column is dropped, as pandas
counts zero non-missing entries). -/
def dropAllNaCols (d : DF) : DF :=
  let keep := (List.range d.ncols).filter (fun j => (d.colCells j).any (fun c => !c.isNa))
  ⟨keep.map (fun j => d.colNames.getD j ""),
   d.rows.map (fun p => (p.1, keep.map (fun j => p.2.getD j .na)))⟩

/-- Method `try_drop_nan(cols)`: the source executes `self.__df =
self.df.dropna(subset=cols)` and then `self.__df = self.df.dropna(axis=1,
how=all)` inside one `try/except`.  The second statement is total on a valid
dataframe (it can never raise), so the two assignments are fused; only the
first statement can fail, and it fails before any assignment. -/
def try_drop_nan (h : BaseDataHandler) (cols : List String) : BaseDataHandler × TryRes :=
  pyTry h (do
    let d ← h.getDf
    let d1 ← dropRowsNa d cols
    .ok (dropAllNaCols d1))

/-- Clamp a numeric cell into `[lo, hi]` as `DataFrame.clip(lower, upper)`
does (missing cells stay missing; the lower bound is applied first). -/
def clampCell (lo hi : ℚ) : Cell → Cell
  | .num q => .num (min hi (max lo q))
  | c => c

/-- Method `try_clamp_cols(cols, min_v=0, max_v=200)`: `self.__df[cols] =
self.df[cols].clip(min_v, max_v)` inside `try/except`.  Selecting an unknown
column raises `KeyError`; clipping a non-numeric column raises `TypeError`;
both happen before the assignment. -/
def try_clamp_cols (h : BaseDataHandler) (cols : List String) (lo hi : ℚ) :
    BaseDataHandler × TryRes :=
  pyTry h (do
    let d ← h.getDf
    if ¬ (cols.all (fun c => d.colNames.contains c)) then
      .error "KeyError: columns not found in axis"
    else if ¬ ((List.range d.ncols).all
        (fun j => !(cols.contains (d.colNames.getD j "")) || d.numericCol j)) then
      .error "TypeError: Cannot use method clip with non-numeric object dtype"
    else
      .ok ⟨d.colNames,
           d.rows.map (fun p =>
             (p.1, mapCellsFrom (fun j c =>
               if cols.contains (d.colNames.getD j "") then clampCell lo hi c else c) 0 p.2))⟩)

/-- Lazy grouped view returned by `df.groupby(by=target_col)[col]`: pandas
validates the key and selected columns eagerly but computes nothing. -/
structure Grouped where
  df : DF
  keys : List String
  sel : String
deriving DecidableEq

/-- Method `try_get_groupby(target_col, col)`: builds the lazy grouped view
inside `try/except`.  `groupby` raises `ValueError` on an empty key list and
`KeyError` on an unknown key column; the selection raises `KeyError` on an
unknown column.  On success the pair is `(True, grouped-view)`. -/
def try_get_groupby (h : BaseDataHandler) (target_col : List String) (col : String) :
    TryRes × Option Grouped :=
  match h.df? with
  | none => (⟨false, some "AttributeError: BaseDataHandler object has no attribute __df"⟩, none)
  | some d =>
    if target_col.isEmpty then (⟨false, some "ValueError: No group keys passed"⟩, none)
    else if ¬ (target_col.all (fun c => d.colNames.contains c)) then
      (⟨false, some "KeyError: grouper not found in axis"⟩, none)
    else if ¬ d.colNames.contains col then
      (⟨false, some "KeyError: column not found in axis"⟩, none)
    else (⟨true, none⟩, some ⟨d, target_col, col⟩)

/-- Shape of a `try_*` result required by the result contract: success with no
error description, or failure carrying one. -/
def resShape (r : BaseDataHandler × TryRes) : Prop :=
  (r.2.ok = true ∧ r.2.err = none) ∨ (r.2.ok = false ∧ ∃ e, r.2.err = some e)

/-- The rows of `d` are sorted by the given columns and directions (the
ordering `try_order_by` establishes). -/
def SortedBy (d : DF) (cols : List String) (asc : List Bool) : Prop :=
  List.Pairwise (fun a b => cmpRow (sortKeys d cols asc) a.2 b.2 ≠ .gt) d.rows

/-- Filesystem with no readable file (used by construction scenarios). -/
def fsEmpty : String → Option DF := fun _ => none

/-- Filesystem target where every path is writable. -/
def wAll : String → Bool := fun _ => true

/-- Two-column sample table `[{a:1,b:2},{a:1,b:2},{a:3,b:None}]` from the
spec scenarios. -/
def dfAB : DF :=
  ⟨["a", "b"], [(0, [.num 1, .num 2]), (1, [.num 1, .num 2]), (2, [.num 3, .na])]⟩

/-- Handler owning `dfAB`. -/
def hAB : BaseDataHandler := ⟨none, some dfAB⟩

/-- One-column table with rows 2, 1 (used for the sorting counterexample). -/
def dfSort : DF := ⟨["a"], [(0, [.num 2]), (1, [.num 1])]⟩

/-- Handler owning `dfSort`. -/
def hSort : BaseDataHandler := ⟨none, some dfSort⟩

/-- Three-row one-column table 1, 2, 3 (used for the `get_lines`
counterexample). -/
def dfThree : DF := ⟨["a"], [(0, [.num 1]), (1, [.num 2]), (2, [.num 3])]⟩

/-- Handler owning `dfThree`. -/
def hThree : BaseDataHandler := ⟨none, some dfThree⟩

/-- Table where column `b` has a value only in a row that `try_drop_nan`
removes (counterexample to the column-retention clause). -/
def dfCross : DF := ⟨["a", "b"], [(0, [.num 1, .na]), (1, [.na, .num 2])]⟩

/-- Handler owning `dfCross`. -/
def hCross : BaseDataHandler := ⟨none, some dfCross⟩

/-- Table with a numeric column (one missing value) and a string column (one
missing value), for the `try_fill_nan` witness. -/
def dfFill : DF := ⟨["x", "s"], [(0, [.na, .str "u"]), (1, [.num 4, .na])]⟩

/-- Handler owning `dfFill`. -/
def hFill : BaseDataHandler := ⟨none, some dfFill⟩

/-- Numeric table with an out-of-range value, for the clamp witness. -/
def dfClamp : DF := ⟨["x"], [(0, [.num 300]), (1, [.num 5]), (2, [.na])]⟩

/-- Handler owning `dfClamp`. -/
def hClamp : BaseDataHandler := ⟨none, some dfClamp⟩

/-- Handler whose source path contains two occurrences of `.csv`. -/
def hTwoCsv : BaseDataHandler := ⟨some "a.csv.csv", some dfSort⟩

/-- Handler with the spec-scenario source path `data.csv`. -/
def hDataCsv : BaseDataHandler := ⟨some "data.csv", some dfAB⟩

/-- Handler whose source path contains no `.csv`. -/
def hNoCsv : BaseDataHandler := ⟨some "nope.txt", some dfSort⟩

/-! ## Lemmas about the try-wrapper and operation bodies -/

theorem pyTry_fst_of_fail (h : BaseDataHandler) (body : Except String DF)
    (hf : (pyTry h body).2.ok = false) : (pyTry h body).1 = h := by
  cases body <;> simp [pyTry] at hf ⊢

theorem pyTry_shape (h : BaseDataHandler) (body : Except String DF) :
    resShape (pyTry h body) := by
  cases body <;> simp [pyTry, resShape]

theorem try_save_fst (w : String → Bool) (h : BaseDataHandler) : (try_save w h).1 = h := by
  obtain ⟨fp, dq⟩ := h
  cases fp <;> cases dq <;> simp [try_save] <;> split <;> rfl

theorem getDf_eq (h : BaseDataHandler) (d : DF) (hdf : h.df? = some d) :
    h.getDf = .ok d := by
  simp [BaseDataHandler.getDf, hdf]

theorem try_order_by_some (h : BaseDataHandler) (d : DF) (cols : List String) (asc : List Bool)
    (hdf : h.df? = some d) :
    try_order_by h cols asc = pyTry h ((sortValues d cols asc).bind resetIndex) := by
  unfold try_order_by
  rw [getDf_eq h d hdf]
  rfl

theorem try_fill_nan_some (h : BaseDataHandler) (d : DF) (b : Bool) (hdf : h.df? = some d) :
    try_fill_nan h b =
      ({ h with df? := some (if b then fillnaZero d else fillnaMean d) }, ⟨true, none⟩) := by
  unfold try_fill_nan
  rw [getDf_eq h d hdf]
  rfl

theorem try_drop_nan_some (h : BaseDataHandler) (d : DF) (cols : List String)
    (hdf : h.df? = some d) :
    try_drop_nan h cols = pyTry h ((dropRowsNa d cols).map dropAllNaCols) := by
  unfold try_drop_nan
  rw [getDf_eq h d hdf]
  show pyTry h ((dropRowsNa d cols).bind (fun d1 => .ok (dropAllNaCols d1))) = _
  cases dropRowsNa d cols <;> rfl

theorem try_add_col_some (h : BaseDataHandler) (d : DF) (t : String)
    (crit : List Cell → Except String Cell) (ax : Int) (hdf : h.df? = some d) :
    try_add_col h t crit ax = pyTry h
      (if ax = 1 then ((d.rows.map (fun p => p.2)).mapM crit).map (assignCol d t)
       else if ax = 0 then
         (((List.range d.ncols).mapM (fun j => crit (d.colCells j))).map
           (fun _ => assignCol d t (d.rows.map (fun _ => Cell.na))))
       else .error "ValueError: No axis named for object type DataFrame") := by
  unfold try_add_col
  rw [getDf_eq h d hdf]
  show pyTry h
      (if ax = 1 then ((d.rows.map (fun p => p.2)).mapM crit).bind
         (fun vals => .ok (assignCol d t vals))
       else if ax = 0 then ((List.range d.ncols).mapM (fun j => crit (d.colCells j))).bind
         (fun _ => .ok (assignCol d t (d.rows.map (fun _ => Cell.na))))
       else .error "ValueError: No axis named for object type DataFrame") = _
  by_cases h1 : ax = 1
  · rw [if_pos h1, if_pos h1]
    cases hm : (d.rows.map (fun p => p.2)).mapM crit <;> rfl
  · rw [if_neg h1, if_neg h1]
    by_cases h0 : ax = 0
    · rw [if_pos h0, if_pos h0]
      cases hm : (List.range d.ncols).mapM (fun j => crit (d.colCells j)) <;> rfl
    · rw [if_neg h0, if_neg h0]

/-- C1: if any of the eight mutating `try_*` operations returns `Failure`,
the handler's owned table (indeed the whole handler) is exactly what it was
before the call — no partial mutation survives a failed operation. -/
theorem c1_failed_try_ops_preserve_table :
    (∀ h cols asc, (try_order_by h cols asc).2.ok = false → (try_order_by h cols asc).1 = h) ∧
    (∀ h b, (try_fill_nan h b).2.ok = false → (try_fill_nan h b).1 = h) ∧
    (∀ h t crit ax, (try_add_col h t crit ax).2.ok = false → (try_add_col h t crit ax).1 = h) ∧
    (∀ h, (try_remove_duplicates h).2.ok = false → (try_remove_duplicates h).1 = h) ∧
    (∀ w h, (try_save w h).2.1.ok = false → (try_save w h).1 = h) ∧
    (∀ h cols, (try_drop_nan h cols).2.ok = false → (try_drop_nan h cols).1 = h) ∧
    (∀ h cols lo hi,
      (try_clamp_cols h cols lo hi).2.ok = false → (try_clamp_cols h cols lo hi).1 = h) ∧
    (∀ fs h dfa, (try_update_df fs h dfa).2.ok = false → (try_update_df fs h dfa).1 = h) := by
  refine ⟨?_, ?_, ?_, ?_, ?_, ?_, ?_, ?_⟩
  · exact fun h cols asc hf => pyTry_fst_of_fail h _ hf
  · exact fun h b hf => pyTry_fst_of_fail h _ hf
  · exact fun h t crit ax hf => pyTry_fst_of_fail h _ hf
  · exact fun h hf => pyTry_fst_of_fail h _ hf
  · exact fun w h _ => try_save_fst w h
  · exact fun h cols hf => pyTry_fst_of_fail h _ hf
  · exact fun h cols lo hi hf => pyTry_fst_of_fail h _ hf
  · exact fun fs h dfa hf => pyTry_fst_of_fail h _ hf

/-- Witness for C1 at the spec scenario: `try_order_by` with the unknown
column `z` on a populated handler fails and leaves the handler unchanged. -/
theorem c1_failed_try_ops_preserve_table_witness :
    (try_order_by hAB ["z"] [true]).2.ok = false ∧ (try_order_by hAB ["z"] [true]).1 = hAB :=
  ⟨by decide, c1_failed_try_ops_preserve_table.1 hAB ["z"] [true] (by decide)⟩

/-- C2: every `try_*` operation, on every input, returns a `(success,
error-or-None)` pair — success carries no error, failure always carries an
error description — and each anticipated failure mode (unknown column name,
unset or unreadable source path, raising derivation function) yields the
failure pair rather than an escaping exception.  (The operations have pair
return types by construction, mirroring the `try/except Exception` blocks
that surround every statement of each `try_*` method in the source.) -/
theorem c2_try_ops_never_raise :
    (∀ fs h dfa, resShape (try_update_df fs h dfa)) ∧
    (∀ h cols asc, resShape (try_order_by h cols asc)) ∧
    (∀ h b, resShape (try_fill_nan h b)) ∧
    (∀ h t crit ax, resShape (try_add_col h t crit ax)) ∧
    (∀ h, resShape (try_remove_duplicates h)) ∧
    (∀ w h, ((try_save w h).2.1.ok = true ∧ (try_save w h).2.1.err = none) ∨
      ((try_save w h).2.1.ok = false ∧ ∃ e, (try_save w h).2.1.err = some e)) ∧
    (∀ h cols, resShape (try_drop_nan h cols)) ∧
    (∀ h cols lo hi, resShape (try_clamp_cols h cols lo hi)) ∧
    (∀ h tc c, ((try_get_groupby h tc c).1.ok = true ∧ (try_get_groupby h tc c).1.err = none ∧
        (try_get_groupby h tc c).2.isSome = true) ∨
      ((try_get_groupby h tc c).1.ok = false ∧ (∃ e, (try_get_groupby h tc c).1.err = some e) ∧
        (try_get_groupby h tc c).2 = none)) ∧
    (∀ h d cols asc c, h.df? = some d → c ∈ cols → d.colNames.contains c = false →
      (try_order_by h cols asc).2.ok = false) ∧
    (∀ fs h, h.file_path = none → (try_update_df fs h none).2.ok = false) ∧
    (∀ fs h p, h.file_path = some p → fs p = none → (try_update_df fs h none).2.ok = false) ∧
    (∀ h d t e, h.df? = some d → d.rows ≠ [] →
      (try_add_col h t (fun _ => .error e) 1).2.ok = false) := by
  refine ⟨fun fs h dfa => pyTry_shape h _, fun h cols asc => pyTry_shape h _,
    fun h b => pyTry_shape h _, fun h t crit ax => pyTry_shape h _,
    fun h => pyTry_shape h _, ?_, fun h cols => pyTry_shape h _,
    fun h cols lo hi => pyTry_shape h _, ?_, ?_, ?_, ?_, ?_⟩
  · intro w h
    obtain ⟨fp, dq⟩ := h
    cases fp <;> cases dq <;> simp [try_save] <;> split <;> simp
  · intro h tc c
    obtain ⟨fp, dq⟩ := h
    cases dq with
    | none => simp [try_get_groupby]
    | some d =>
      simp only [try_get_groupby]
      split
      · simp
      · split
        · simp
        · split <;> simp
  · intro h d cols asc c hdf hc hcon
    have hall : cols.all (fun x => d.colNames.contains x) = false :=
      List.all_eq_false.2 ⟨c, hc, by simpa using hcon⟩
    rw [try_order_by_some h d cols asc hdf]
    have hcond : ¬ (cols.all (fun x => d.colNames.contains x) = true) := by
      rw [hall]
      simp
    have hsv : sortValues d cols asc = .error "KeyError: columns not found in axis" := by
      unfold sortValues
      rw [if_pos hcond]
    rw [hsv]
    rfl
  · intro fs h hp
    simp [try_update_df, hp, pyTry]
  · intro fs h p hp hfs
    simp [try_update_df, hp, hfs, pyTry]
  · intro h d t e hdf hne
    obtain ⟨r, rest, hr⟩ : ∃ r rest, d.rows = r :: rest := by
      cases hrr : d.rows with
      | nil => exact absurd hrr hne
      | cons a l => exact ⟨a, l, rfl⟩
    rw [try_add_col_some h d t _ 1 hdf, if_pos rfl, hr]
    rfl

/-- Witness for C2: the unknown-column scenario from the spec returns the
failure pair `(False, description)` from `try_order_by`. -/
theorem c2_try_ops_never_raise_witness :
    (try_order_by hAB ["z"] [true]).2.ok = false :=
  c2_try_ops_never_raise.2.2.2.2.2.2.2.2.2.1 hAB dfAB ["z"] [true] "z" rfl
    (by decide) (by decide)

/-! ## Lemmas about the output-path derivation of `try_save` -/

theorem pyReplaceAux_of_not_contains (pat rep : List Char) :
    ∀ s : List Char, containsSub s pat = false → pyReplaceAux pat rep 0 s = s := by
  intro s
  induction s with
  | nil => intro _; rfl
  | cons c rest ih =>
    intro hns
    have hor : (startsWith (c :: rest) pat || containsSub rest pat) = false := by
      simpa [containsSub] using hns
    have h1 : startsWith (c :: rest) pat = false := by
      cases hsw : startsWith (c :: rest) pat
      · rfl
      · rw [hsw] at hor
        simp at hor
    have h2 : containsSub rest pat = false := by
      cases hcs : containsSub rest pat
      · rfl
      · rw [hcs] at hor
        simp at hor
    have hcond : ¬ (pat ≠ [] ∧ startsWith (c :: rest) pat = true) := by
      rintro ⟨-, hs⟩
      rw [h1] at hs
      exact absurd hs (by decide)
    rw [pyReplaceAux, if_neg hcond, ih h2]

theorem savePath_of_not_contains (p : String)
    (hnc : containsSub p.data ".csv".data = false) : savePath p = p := by
  unfold savePath
  rw [pyReplaceAux_of_not_contains _ _ _ hnc]

/-- Counterexample to C3: for the source path `a.csv.csv`, `try_save` derives
`a_new.csv_new.csv` — Python `str.replace` substitutes EVERY occurrence of
`.csv`, not only the first, which would give `a_new.csv.csv`. -/
theorem c3_counterexample_save_path_replaces_all :
    (try_save wAll hTwoCsv).2.2 = some ("a_new.csv_new.csv", toCsv dfSort) ∧
    specSavePath "a.csv.csv" = "a_new.csv.csv" ∧
    savePath "a.csv.csv" ≠ specSavePath "a.csv.csv" := by
  refine ⟨by decide, by decide, by decide⟩

/-- C3 (amended): `try_save` derives the output path by replacing EVERY
occurrence of the substring `.csv` with `_new.csv` (left to right,
non-overlapping); if the source path contains no `.csv` the output path
equals the input path unchanged; for source path `data.csv` it writes to
`data_new.csv`. -/
theorem c3_amended_save_path_replace_semantics (w : String → Bool) (h : BaseDataHandler)
    (p : String) (d : DF) (hp : h.file_path = some p) (hd : h.df? = some d)
    (hw : w (savePath p) = true) :
    (try_save w h).2.2 = some (savePath p, toCsv d) ∧
    (containsSub p.data ".csv".data = false → savePath p = p) ∧
    savePath "data.csv" = "data_new.csv" := by
  refine ⟨?_, fun hnc => savePath_of_not_contains p hnc, by decide⟩
  obtain ⟨fp, dq⟩ := h
  cases hp
  cases hd
  simp [try_save, hw]

/-- Witness for C3 (amended) at a path with no `.csv` occurrence. -/
theorem c3_amended_save_path_replace_semantics_witness :
    (try_save wAll hNoCsv).2.2 = some (savePath "nope.txt", toCsv dfSort) ∧
    (containsSub "nope.txt".data ".csv".data = false → savePath "nope.txt" = "nope.txt") ∧
    savePath "data.csv" = "data_new.csv" :=
  c3_amended_save_path_replace_semantics wAll hNoCsv "nope.txt" dfSort rfl rfl rfl

/-! ## Claims about `get_lines`, construction, and `try_save` serialization -/

/-- Counterexample to C6: on the 3-row table, `get_lines(-1)` returns the
last TWO rows (pandas `tail(-1)` drops the first `|-1|` rows), not the
trailing `min(|-1|, 3) = 1` rows the claim predicts. -/
theorem c6_counterexample_get_lines_negative :
    get_lines hThree (-1) = .ok ⟨["a"], [(1, [.num 2]), (2, [.num 3])]⟩ ∧
    get_lines hThree (-1) ≠ .ok ⟨["a"], [(2, [.num 3])]⟩ :=
  ⟨by decide, by decide⟩

/-- C6 (amended): for a populated handler, `get_lines(n)` with `n > 0`
returns the first `min(n, rowCount)` rows in original order; with `n = 0` it
returns no rows; with `n < 0` it returns all rows EXCEPT the first `|n|`
(i.e. the trailing `rowCount - |n|` rows), pandas `tail` semantics for a
negative argument.  `get_lines` never mutates the owned table (it is a pure
read returning a fresh dataframe value). -/
theorem c6_amended_get_lines_selection (h : BaseDataHandler) (d : DF) (n : Int)
    (hdf : h.df? = some d) :
    (0 < n → get_lines h n = .ok ⟨d.colNames, d.rows.take n.toNat⟩ ∧
      (d.rows.take n.toNat).length = min n.toNat d.rows.length) ∧
    (n = 0 → get_lines h n = .ok ⟨d.colNames, []⟩) ∧
    (n < 0 → get_lines h n = .ok ⟨d.colNames, d.rows.drop n.natAbs⟩) := by
  have hgl : get_lines h n = .ok (if 0 < n then d.headPd n.toNat else d.tailPd n) := by
    unfold get_lines
    rw [getDf_eq h d hdf]
  refine ⟨fun hn => ⟨?_, ?_⟩, fun hn => ?_, fun hn => ?_⟩
  · rw [hgl, if_pos hn]
    rfl
  · simpa using List.length_take n.toNat d.rows
  · subst hn
    rw [hgl]
    rfl
  · rw [hgl, if_neg (by omega)]
    unfold DF.tailPd
    rw [if_neg (by omega), if_neg (by omega)]
    have : (-n).toNat = n.natAbs := by omega
    rw [this]

/-- Witness for C6 (amended) at the 3-row table with `n = 2`. -/
theorem c6_amended_get_lines_selection_witness :
    get_lines hThree 2 = .ok ⟨["a"], dfThree.rows.take 2⟩ ∧
    (dfThree.rows.take 2).length = min 2 dfThree.rows.length :=
  (c6_amended_get_lines_selection hThree dfThree 2 rfl).1 (by decide)

/-- Counterexample to C9: constructing with no path and no table leaves the
handler unset with the failure only reported, but a subsequent `get_lines`
call raises an `AttributeError` that escapes to the caller (the `.error`
result of the unwrapped method) — it neither yields an empty result nor a
reported `(False, e)` failure. -/
theorem c9_counterexample_get_lines_on_unset_raises :
    (mkBaseDataHandler fsEmpty none none).1.df? = none ∧
    (mkBaseDataHandler fsEmpty none none).2.isSome = true ∧
    get_lines (mkBaseDataHandler fsEmpty none none).1 5 =
      .error "AttributeError: BaseDataHandler object has no attribute __df" :=
  ⟨by decide, by decide, by decide⟩

/-- C9 (amended): construction with no source path and no initial table, or
with an unreadable path, never aborts — the handler object is constructed,
the failure is only reported, and the handler is left unset; but a subsequent
`get_lines` call on the unset handler raises an uncaught `AttributeError`
(an escaping exception), not an empty result or a reported failure. -/
theorem c9_amended_construction_reports_but_get_lines_raises (fs : String → Option DF)
    (p : Option String) (hbad : p = none ∨ ∃ q, p = some q ∧ fs q = none) :
    (mkBaseDataHandler fs p none).1.file_path = p ∧
    (mkBaseDataHandler fs p none).1.df? = none ∧
    (mkBaseDataHandler fs p none).2.isSome = true ∧
    ∀ n, ∃ e, get_lines (mkBaseDataHandler fs p none).1 n = .error e := by
  rcases hbad with hb | ⟨q, hq, hfs⟩
  · subst hb
    exact ⟨rfl, rfl, rfl, fun n => ⟨_, rfl⟩⟩
  · subst hq
    refine ⟨?_, ?_, ?_, ?_⟩ <;>
      simp [mkBaseDataHandler, try_update_df, pyTry, hfs, get_lines, BaseDataHandler.getDf]

/-- Witness for C9 (amended) at the empty filesystem with no path. -/
theorem c9_amended_construction_reports_but_get_lines_raises_witness :
    (mkBaseDataHandler fsEmpty none none).1.file_path = none ∧
    (mkBaseDataHandler fsEmpty none none).1.df? = none ∧
    (mkBaseDataHandler fsEmpty none none).2.isSome = true ∧
    ∀ n, ∃ e, get_lines (mkBaseDataHandler fsEmpty none none).1 n = .error e :=
  c9_amended_construction_reports_but_get_lines_raises fsEmpty none (Or.inl rfl)

/-- C10: a successful `try_save` on a populated handler always serializes the
row index as an extra unnamed leading column (pandas `to_csv` default
`index=True`), so the written header has one more column than the dataframe
and can never equal a header of the dataframe's own width. -/
theorem c10_save_serializes_index_column (w : String → Bool) (h : BaseDataHandler)
    (p : String) (d : DF) (hp : h.file_path = some p) (hd : h.df? = some d)
    (hcsv : containsSub p.data ".csv".data = true) (hw : w (savePath p) = true) :
    (try_save w h).2.1.ok = true ∧
    (try_save w h).2.2 = some (savePath p, toCsv d) ∧
    (toCsv d).header = "" :: d.colNames ∧
    (toCsv d).body = d.rows.map (fun q => Cell.num (q.1 : ℚ) :: q.2) ∧
    ∀ hdr : List String, hdr.length = d.ncols → (toCsv d).header ≠ hdr := by
  obtain ⟨fp, dq⟩ := h
  cases hp
  cases hd
  refine ⟨by simp [try_save, hw], by simp [try_save, hw], rfl, rfl, ?_⟩
  intro hdr hlen heq
  have hlh := congrArg List.length heq
  simp only [toCsv, List.length_cons] at hlh
  rw [hlen] at hlh
  simp [DF.ncols] at hlh

/-- Witness for C10 at the spec scenario path `data.csv`. -/
theorem c10_save_serializes_index_column_witness :
    (try_save wAll hDataCsv).2.1.ok = true ∧
    (try_save wAll hDataCsv).2.2 = some (savePath "data.csv", toCsv dfAB) :=
  ⟨(c10_save_serializes_index_column wAll hDataCsv "data.csv" dfAB rfl rfl (by decide) rfl).1,
   (c10_save_serializes_index_column wAll hDataCsv "data.csv" dfAB rfl rfl (by decide) rfl).2.1⟩

/-! ## Cell-level lemmas for the fill and clamp operations -/

theorem ok_bind {ε α β : Type} (a : α) (f : α → Except ε β) :
    (Except.ok a : Except ε α) >>= f = f a := rfl

theorem getD_map_of_lt {α β : Type} (f : α → β) (da : α) (db : β) :
    ∀ (l : List α) (i : Nat), i < l.length → (l.map f).getD i db = f (l.getD i da)
  | a :: l, 0, _ => rfl
  | a :: l, i + 1, hi =>
    getD_map_of_lt f da db l i (by simpa using Nat.lt_of_succ_lt_succ hi)

theorem length_mapCellsFrom (f : Nat → Cell → Cell) :
    ∀ (k : Nat) (r : Row), (mapCellsFrom f k r).length = r.length
  | _, [] => rfl
  | k, c :: r => by
    simp [mapCellsFrom, length_mapCellsFrom f (k + 1) r]

theorem getD_mapCellsFrom (f : Nat → Cell → Cell) :
    ∀ (r : Row) (k j : Nat), j < r.length →
      (mapCellsFrom f k r).getD j .na = f (k + j) (r.getD j .na)
  | c :: r, k, 0, _ => by simp [mapCellsFrom]
  | c :: r, k, j + 1, hj => by
    have := getD_mapCellsFrom f r (k + 1) j (by simpa using Nat.lt_of_succ_lt_succ hj)
    simp only [mapCellsFrom, List.getD_cons_succ, this]
    congr 1
    omega

/-- C5: with `use_mean = true`, `try_fill_nan` replaces every missing value
of every column (numeric or not) by the literal `0`; with `use_mean = false`
it replaces the missing values of each numeric column by that column's mean
over its non-missing values computed before the fill, and leaves non-missing
cells and non-numeric columns entirely unchanged — the flag's meaning is
inverted from its name, exactly as the source implements it. -/
theorem c5_fill_nan_inverted_flag (h : BaseDataHandler) (d : DF) (hdf : h.df? = some d) :
    ((try_fill_nan h true).2.ok = true ∧
     (try_fill_nan h true).1.df? = some (fillnaZero d) ∧
     (fillnaZero d).colNames = d.colNames ∧
     (fillnaZero d).rows.length = d.rows.length ∧
     (∀ i j, i < d.rows.length → j < (d.rows.getD i (0, [])).2.length →
       (fillnaZero d).cell i j = (if (d.cell i j).isNa then .num 0 else d.cell i j))) ∧
    ((try_fill_nan h false).2.ok = true ∧
     (try_fill_nan h false).1.df? = some (fillnaMean d) ∧
     (fillnaMean d).colNames = d.colNames ∧
     (fillnaMean d).rows.length = d.rows.length ∧
     (∀ i j, i < d.rows.length → j < (d.rows.getD i (0, [])).2.length →
       ((d.cell i j).isNa = false → (fillnaMean d).cell i j = d.cell i j) ∧
       (d.numericCol j = false → (fillnaMean d).cell i j = d.cell i j) ∧
       (d.numericCol j = true → (d.cell i j).isNa = true → ∀ m, d.colMean j = some m →
         (fillnaMean d).cell i j = .num m))) := by
  constructor
  · refine ⟨by rw [try_fill_nan_some h d true hdf], by rw [try_fill_nan_some h d true hdf]; rfl,
      rfl, by simp [fillnaZero], ?_⟩
    intro i j hi hj
    unfold DF.cell fillnaZero
    rw [getD_map_of_lt _ (0, ([] : Row)) (0, ([] : Row)) d.rows i hi]
    rw [getD_map_of_lt _ Cell.na Cell.na _ j hj]
  · refine ⟨by rw [try_fill_nan_some h d false hdf], by rw [try_fill_nan_some h d false hdf]; rfl,
      rfl, by simp [fillnaMean], ?_⟩
    intro i j hi hj
    have hcell : (fillnaMean d).cell i j =
        (if (d.cell i j).isNa then
          match d.meanFill j with
          | some m => Cell.num m
          | none => d.cell i j
         else d.cell i j) := by
      unfold DF.cell fillnaMean
      rw [getD_map_of_lt _ (0, ([] : Row)) (0, ([] : Row)) d.rows i hi]
      rw [getD_mapCellsFrom _ _ 0 j hj]
      simp
    refine ⟨fun hna => ?_, fun hnum => ?_, fun hnum hna m hm => ?_⟩
    · rw [hcell, if_neg (by rw [hna]; exact (by decide))]
    · rw [hcell]
      have hmf : d.meanFill j = none := by simp [DF.meanFill, hnum]
      rw [hmf]
      cases hna : (d.cell i j).isNa <;> simp
    · rw [hcell, if_pos (by rw [hna])]
      have hmf : d.meanFill j = some m := by simp [DF.meanFill, hnum, hm]
      rw [hmf]

/-- Witness for C5 on a table with a numeric and a string column, each with
one missing value. -/
theorem c5_fill_nan_inverted_flag_witness :
    (try_fill_nan hFill true).2.ok = true ∧
    (try_fill_nan hFill true).1.df? = some (fillnaZero dfFill) ∧
    (try_fill_nan hFill false).2.ok = true ∧
    (try_fill_nan hFill false).1.df? = some (fillnaMean dfFill) :=
  ⟨(c5_fill_nan_inverted_flag hFill dfFill rfl).1.1,
   (c5_fill_nan_inverted_flag hFill dfFill rfl).1.2.1,
   (c5_fill_nan_inverted_flag hFill dfFill rfl).2.1,
   (c5_fill_nan_inverted_flag hFill dfFill rfl).2.2.1⟩

/-- C8: for a populated handler, existing numeric columns `cols` and bounds
`lo ≤ hi`, `try_clamp_cols` succeeds; afterwards every numeric value in the
`cols` columns lies in `[lo, hi]`, every value already within `[lo, hi]` is
unchanged (and missing stays missing), and every column outside `cols` is
entirely unchanged. -/
theorem c8_clamp_cols_bounds (h : BaseDataHandler) (d : DF) (cols : List String) (lo hi : ℚ)
    (hdf : h.df? = some d) (hsub : cols.all (fun c => d.colNames.contains c) = true)
    (hnum : ∀ j, j < d.ncols → cols.contains (d.colNames.getD j "") = true →
      d.numericCol j = true)
    (hlohi : lo ≤ hi) :
    (try_clamp_cols h cols lo hi).2.ok = true ∧
    ∃ d', (try_clamp_cols h cols lo hi).1.df? = some d' ∧
      d'.colNames = d.colNames ∧ d'.rows.length = d.rows.length ∧
      ∀ i j, i < d.rows.length → j < (d.rows.getD i (0, [])).2.length →
        (cols.contains (d.colNames.getD j "") = false → d'.cell i j = d.cell i j) ∧
        (cols.contains (d.colNames.getD j "") = true →
          (∀ q, d'.cell i j = .num q → lo ≤ q ∧ q ≤ hi) ∧
          (∀ q, d.cell i j = .num q → lo ≤ q → q ≤ hi → d'.cell i j = .num q) ∧
          ((d.cell i j).isNa = true → (d'.cell i j).isNa = true)) := by
  have hc2 : ((List.range d.ncols).all
      (fun j => !(cols.contains (d.colNames.getD j "")) || d.numericCol j)) = true := by
    rw [List.all_eq_true]
    intro j hj
    rw [List.mem_range] at hj
    by_cases hsel : cols.contains (d.colNames.getD j "") = true
    · rw [hsel, hnum j hj hsel]
      rfl
    · rw [Bool.not_eq_true] at hsel
      rw [hsel]
      rfl
  have hbody : try_clamp_cols h cols lo hi = pyTry h (.ok
      ⟨d.colNames,
       d.rows.map (fun p =>
         (p.1, mapCellsFrom (fun j c =>
           if cols.contains (d.colNames.getD j "") then clampCell lo hi c else c) 0 p.2))⟩) := by
    unfold try_clamp_cols
    rw [getDf_eq h d hdf, ok_bind]
    rw [if_neg (by rw [hsub]; simp), if_neg (by rw [hc2]; simp)]
  refine ⟨by rw [hbody]; rfl, ?_⟩
  refine ⟨⟨d.colNames,
    d.rows.map (fun p =>
      (p.1, mapCellsFrom (fun j c =>
        if cols.contains (d.colNames.getD j "") then clampCell lo hi c else c) 0 p.2))⟩,
    by rw [hbody]; rfl, rfl, by simp, ?_⟩
  intro i j hri hrj
  have hc : (DF.mk d.colNames
      (d.rows.map (fun p =>
        (p.1, mapCellsFrom (fun j c =>
          if cols.contains (d.colNames.getD j "") then clampCell lo hi c else c) 0 p.2)))).cell i j =
      (if cols.contains (d.colNames.getD j "") then clampCell lo hi (d.cell i j)
       else d.cell i j) := by
    unfold DF.cell
    rw [getD_map_of_lt _ (0, ([] : Row)) (0, ([] : Row)) d.rows i hri]
    rw [getD_mapCellsFrom _ _ 0 j hrj]
    simp
  refine ⟨fun hns => ?_, fun hs => ⟨fun q hq => ?_, fun q hq hql hqh => ?_, fun hna => ?_⟩⟩
  · rw [hc, if_neg (by rw [hns]; simp)]
  · rw [hc, if_pos (by rw [hs])] at hq
    rcases hcv : d.cell i j with _ | qv | s
    · rw [hcv] at hq
      simp [clampCell] at hq
    · rw [hcv] at hq
      simp only [clampCell, Cell.num.injEq] at hq
      subst hq
      constructor
      · exact le_min hlohi (le_max_left lo qv)
      · exact min_le_left hi _
    · rw [hcv] at hq
      simp [clampCell] at hq
  · rw [hc, if_pos (by rw [hs]), hq]
    simp only [clampCell]
    rw [max_eq_right hql, min_eq_right hqh]
  · rw [hc, if_pos (by rw [hs])]
    rcases hcv : d.cell i j with _ | qv | s
    · simp [clampCell, Cell.isNa]
    · rw [hcv] at hna
      simp [Cell.isNa] at hna
    · rw [hcv] at hna
      simp [Cell.isNa] at hna

/-- Witness for C8 on a one-column numeric table with an out-of-range value. -/
theorem c8_clamp_cols_bounds_witness :
    (try_clamp_cols hClamp ["x"] 0 200).2.ok = true ∧
    ∃ d', (try_clamp_cols hClamp ["x"] 0 200).1.df? = some d' ∧
      d'.colNames = dfClamp.colNames ∧ d'.rows.length = dfClamp.rows.length ∧
      ∀ i j, i < dfClamp.rows.length → j < (dfClamp.rows.getD i (0, [])).2.length →
        (["x"].contains (dfClamp.colNames.getD j "") = false → d'.cell i j = dfClamp.cell i j) ∧
        (["x"].contains (dfClamp.colNames.getD j "") = true →
          (∀ q, d'.cell i j = .num q → 0 ≤ q ∧ q ≤ 200) ∧
          (∀ q, dfClamp.cell i j = .num q → 0 ≤ q → q ≤ 200 → d'.cell i j = .num q) ∧
          ((dfClamp.cell i j).isNa = true → (d'.cell i j).isNa = true)) :=
  c8_clamp_cols_bounds hClamp dfClamp ["x"] 0 200 rfl (by decide)
    (by intro j hj hsel; revert j; decide) (by norm_num)

/-! ## Claim C7: `try_drop_nan` -/

/-- Counterexample to C7: in `dfCross`, column `b` is NOT entirely missing
before the row-drop (it holds `2` in the second row), yet `try_drop_nan`
on `["a"]` drops that row and then removes column `b`, because the source
drops the columns that are entirely missing AFTER the row-drop — the
retention clause of the claim fails. -/
theorem c7_counterexample_column_retention :
    (try_drop_nan hCross ["a"]).2.ok = true ∧
    (try_drop_nan hCross ["a"]).1.df? = some ⟨["a"], [(0, [.num 1])]⟩ ∧
    (dfCross.colCells 1).all Cell.isNa = false ∧
    "b" ∈ dfCross.colNames ∧
    "b" ∉ (DF.mk ["a"] [(0, [.num 1])]).colNames :=
  ⟨by decide, by decide, by decide, by decide, by decide⟩

/-- C7 (amended): for a populated handler and existing columns `cols` with
distinct column names, `try_drop_nan(cols)` succeeds; the surviving rows are
exactly those with no missing value in the `cols` columns; no surviving row
has a missing value in any surviving column of `cols`; a column entirely
missing before the row-drop is absent from the result; and a column is
retained exactly when it has a non-missing value in some SURVIVING row (a
column whose values all sat in dropped rows is removed as well — the column
filter runs after the row filter). -/
theorem c7_amended_drop_nan_two_phase (h : BaseDataHandler) (d : DF) (cols : List String)
    (hdf : h.df? = some d) (hsub : cols.all (fun c => d.colNames.contains c) = true)
    (hnodup : d.colNames.Nodup) :
    (try_drop_nan h cols).2.ok = true ∧
    ∃ d', (try_drop_nan h cols).1.df? = some d' ∧
      d'.rows.length = (d.rows.filter (fun p => !(rowHasNaIn d cols p.2))).length ∧
      (∀ q ∈ d'.rows, ∀ k, k < d'.colNames.length → d'.colNames.getD k "" ∈ cols →
        (q.2.getD k .na).isNa = false) ∧
      (∀ j, j < d.ncols → (d.colCells j).all Cell.isNa = true →
        d.colNames.getD j "" ∉ d'.colNames) ∧
      (∀ j, j < d.ncols →
        (∃ p ∈ d.rows, rowHasNaIn d cols p.2 = false ∧ (p.2.getD j .na).isNa = false) →
        d.colNames.getD j "" ∈ d'.colNames) ∧
      (∀ j, j < d.ncols →
        (∀ p ∈ d.rows, rowHasNaIn d cols p.2 = false → (p.2.getD j .na).isNa = true) →
        d.colNames.getD j "" ∉ d'.colNames) := by
  have hdrop : dropRowsNa d cols =
      .ok ⟨d.colNames, d.rows.filter (fun p => !(rowHasNaIn d cols p.2))⟩ := by
    unfold dropRowsNa
    rw [if_neg (by rw [hsub]; simp)]
  have hres : try_drop_nan h cols =
      pyTry h (.ok (dropAllNaCols ⟨d.colNames,
        d.rows.filter (fun p => !(rowHasNaIn d cols p.2))⟩)) := by
    rw [try_drop_nan_some h d cols hdf, hdrop]
    rfl
  set d1 : DF := ⟨d.colNames, d.rows.filter (fun p => !(rowHasNaIn d cols p.2))⟩ with hd1
  set keep : List Nat :=
    (List.range d1.ncols).filter (fun j => (d1.colCells j).any (fun c => !c.isNa)) with hkeep
  have hkeepSub : ∀ j ∈ keep, j < d.ncols ∧ (d1.colCells j).any (fun c => !c.isNa) = true := by
    intro j hj
    rw [hkeep, List.mem_filter, List.mem_range] at hj
    exact ⟨hj.1, hj.2⟩
  have hddef : dropAllNaCols d1 =
      ⟨keep.map (fun j => d.colNames.getD j ""),
       d1.rows.map (fun p => (p.1, keep.map (fun j => p.2.getD j .na)))⟩ := rfl
  refine ⟨by rw [hres]; rfl, dropAllNaCols d1, by rw [hres]; rfl, ?_, ?_, ?_, ?_, ?_⟩
  · rw [hddef]
    simp [hd1]
  · -- no surviving row has a missing value in a surviving column of cols
    intro q hq k hk hkc
    rw [hddef] at hq hk hkc
    simp only [List.length_map] at hk
    obtain ⟨p, hp, hpq⟩ := List.mem_map.1 hq
    have hjk : keep.getD k 0 ∈ keep := by
      rw [List.getD_eq_getElem keep 0 hk]
      exact List.getElem_mem hk
    obtain ⟨hjlt, -⟩ := hkeepSub _ hjk
    have hname : (keep.map (fun j => d.colNames.getD j "")).getD k "" =
        d.colNames.getD (keep.getD k 0) "" := getD_map_of_lt _ 0 "" keep k hk
    rw [hname] at hkc
    have hcell : q.2.getD k .na = p.2.getD (keep.getD k 0) .na := by
      rw [← hpq]
      exact getD_map_of_lt _ 0 Cell.na keep k hk
    rw [hcell]
    have hrowOk : rowHasNaIn d cols p.2 = false := by
      rw [hd1] at hp
      have := (List.mem_filter.1 hp).2
      simpa using this
    have hall := List.any_eq_false.1 hrowOk
    have hj := hall (keep.getD k 0) (List.mem_range.2 hjlt)
    rcases hna : (p.2.getD (keep.getD k 0) .na).isNa with _ | _
    · rfl
    · exfalso
      apply hj
      rw [hna, Bool.and_true]
      exact List.elem_iff.2 hkc
  · -- a column entirely missing before the row drop is absent afterwards
    intro j hjlt hallna hmem
    rw [hddef] at hmem
    obtain ⟨j', hj', hjeq⟩ := List.mem_map.1 hmem
    obtain ⟨hj'lt, hany⟩ := hkeepSub _ hj'
    have hjj : j' = j := by
      rw [List.getD_eq_getElem d.colNames "" hj'lt, List.getD_eq_getElem d.colNames "" hjlt]
        at hjeq
      exact (List.Nodup.getElem_inj_iff hnodup).1 hjeq
    subst hjj
    obtain ⟨c, hc, hcna⟩ := List.any_eq_true.1 hany
    have hcd : c ∈ d.colCells j' := by
      rw [hd1] at hc
      unfold DF.colCells at hc ⊢
      obtain ⟨p, hp, hpc⟩ := List.mem_map.1 hc
      exact List.mem_map.2 ⟨p, List.mem_of_mem_filter hp, hpc⟩
    have := List.all_eq_true.1 hallna c hcd
    rw [this] at hcna
    simp at hcna
  · -- a column with a value in a surviving row is retained
    intro j hjlt ⟨p, hp, hpok, hpval⟩
    rw [hddef]
    refine List.mem_map.2 ⟨j, ?_, rfl⟩
    rw [hkeep, List.mem_filter, List.mem_range]
    refine ⟨hjlt, ?_⟩
    refine List.any_eq_true.2 ⟨p.2.getD j .na, ?_, by rw [hpval]; rfl⟩
    unfold DF.colCells
    refine List.mem_map.2 ⟨p, ?_, rfl⟩
    rw [hd1]
    refine List.mem_filter.2 ⟨hp, by rw [hpok]; rfl⟩
  · -- a column missing in every surviving row is removed (even if it had
    -- values in rows the first phase dropped)
    intro j hjlt hnone hmem
    rw [hddef] at hmem
    obtain ⟨j', hj', hjeq⟩ := List.mem_map.1 hmem
    obtain ⟨hj'lt, hany⟩ := hkeepSub _ hj'
    have hjj : j' = j := by
      rw [List.getD_eq_getElem d.colNames "" hj'lt, List.getD_eq_getElem d.colNames "" hjlt]
        at hjeq
      exact (List.Nodup.getElem_inj_iff hnodup).1 hjeq
    subst hjj
    obtain ⟨c, hc, hcna⟩ := List.any_eq_true.1 hany
    unfold DF.colCells at hc
    obtain ⟨p, hp, hpc⟩ := List.mem_map.1 hc
    rw [hd1] at hp
    have hpmem := List.mem_of_mem_filter hp
    have hpok : rowHasNaIn d cols p.2 = false := by
      simpa using (List.mem_filter.1 hp).2
    have hna := hnone p hpmem hpok
    rw [hpc] at hna
    rw [hna] at hcna
    simp at hcna

/-- Witness for C7 (amended) at the spec scenario: `tryDropNan(["b"])` on
`[{a:1,b:2},{a:1,b:2},{a:3,b:None}]` keeps the first two rows and drops no
column. -/
theorem c7_amended_drop_nan_two_phase_witness :
    (try_drop_nan hAB ["b"]).2.ok = true ∧
    (try_drop_nan hAB ["b"]).1.df? =
      some ⟨["a", "b"], [(0, [.num 1, .num 2]), (1, [.num 1, .num 2])]⟩ :=
  ⟨(c7_amended_drop_nan_two_phase hAB dfAB ["b"] rfl (by decide) (by decide)).1, by decide⟩

/-! ## Comparator lemmas for `sort_values` -/

theorem cmpO_eq_iff {α : Type} [LinearOrder α] (a b : α) : cmpO a b = .eq ↔ a = b := by
  unfold cmpO
  split_ifs with h1 h2
  · exact iff_of_false (by decide) (ne_of_lt h1)
  · exact iff_of_false (by decide) (ne_of_gt h2)
  · exact iff_of_true rfl (le_antisymm (le_of_not_lt h2) (le_of_not_lt h1))

theorem cmpO_lt_iff {α : Type} [LinearOrder α] (a b : α) : cmpO a b = .lt ↔ a < b := by
  unfold cmpO
  split_ifs with h1 h2
  · exact iff_of_true rfl h1
  · exact iff_of_false (by decide) h1
  · exact iff_of_false (by decide) h1

theorem cmpO_swap {α : Type} [LinearOrder α] (a b : α) : cmpO a b = (cmpO b a).swap := by
  unfold cmpO
  rcases lt_trichotomy a b with h | h | h
  · rw [if_pos h, if_neg (lt_asymm h), if_pos h]
    rfl
  · subst h
    simp [lt_irrefl, Ordering.swap]
  · rw [if_neg (lt_asymm h), if_pos h, if_pos h]
    rfl

theorem baseCmp_eq_eq : ∀ {a b : Cell}, baseCmp a b = .eq → a = b := by
  intro a b h
  cases a <;> cases b <;> simp [baseCmp] at h ⊢ <;> exact (cmpO_eq_iff _ _).1 h

theorem cmpCell_eq_eq (asc : Bool) : ∀ {a b : Cell}, cmpCell asc a b = .eq → a = b := by
  intro a b h
  cases asc <;> cases a <;> cases b <;> simp [cmpCell, baseCmp] at h ⊢ <;>
    first
      | exact (cmpO_eq_iff _ _).1 h
      | exact ((cmpO_eq_iff _ _).1 h).symm

theorem cmpCell_swap (asc : Bool) (a b : Cell) : cmpCell asc a b = (cmpCell asc b a).swap := by
  cases asc <;> cases a <;> cases b <;> first | rfl | exact cmpO_swap _ _

theorem baseCmp_lt_trans : ∀ {a b c : Cell},
    baseCmp a b = .lt → baseCmp b c = .lt → baseCmp a c = .lt := by
  intro a b c h1 h2
  cases a <;> cases b <;> cases c <;> simp [baseCmp] at h1 h2 ⊢ <;>
    exact (cmpO_lt_iff _ _).2 (lt_trans ((cmpO_lt_iff _ _).1 h1) ((cmpO_lt_iff _ _).1 h2))

theorem cmpCell_lt_trans (asc : Bool) : ∀ {a b c : Cell},
    cmpCell asc a b = .lt → cmpCell asc b c = .lt → cmpCell asc a c = .lt := by
  intro a b c h1 h2
  cases asc <;> cases a <;> cases b <;> cases c <;> simp [cmpCell] at h1 h2 ⊢ <;>
    first | exact baseCmp_lt_trans h1 h2 | exact baseCmp_lt_trans h2 h1

theorem cmpRow_swap (ks : List (Nat × Bool)) :
    ∀ r1 r2 : Row, cmpRow ks r1 r2 = (cmpRow ks r2 r1).swap := by
  induction ks with
  | nil => intro r1 r2; rfl
  | cons k rest ih =>
    intro r1 r2
    have hsw := cmpCell_swap k.2 (r1.getD k.1 .na) (r2.getD k.1 .na)
    rcases hc : cmpCell k.2 (r2.getD k.1 .na) (r1.getD k.1 .na) with _ | _ | _
    · have h12 : cmpCell k.2 (r1.getD k.1 .na) (r2.getD k.1 .na) = .gt := by rw [hsw, hc]; rfl
      simp only [cmpRow]
      rw [h12, hc]
      rfl
    · have h12 : cmpCell k.2 (r1.getD k.1 .na) (r2.getD k.1 .na) = .eq := by rw [hsw, hc]; rfl
      simp only [cmpRow]
      rw [h12, hc]
      exact ih r1 r2
    · have h12 : cmpCell k.2 (r1.getD k.1 .na) (r2.getD k.1 .na) = .lt := by rw [hsw, hc]; rfl
      simp only [cmpRow]
      rw [h12, hc]
      rfl

theorem cmpRow_trans (ks : List (Nat × Bool)) : ∀ {r1 r2 r3 : Row},
    cmpRow ks r1 r2 ≠ .gt → cmpRow ks r2 r3 ≠ .gt → cmpRow ks r1 r3 ≠ .gt := by
  induction ks with
  | nil => intro r1 r2 r3 _ _; simp [cmpRow]
  | cons k rest ih =>
    intro r1 r2 r3 h12 h23
    rcases hc12 : cmpCell k.2 (r1.getD k.1 .na) (r2.getD k.1 .na) with _ | _ | _
    · rcases hc23 : cmpCell k.2 (r2.getD k.1 .na) (r3.getD k.1 .na) with _ | _ | _
      · have h13 := cmpCell_lt_trans k.2 hc12 hc23
        simp only [cmpRow]
        rw [h13]
        simp
      · have he := cmpCell_eq_eq k.2 hc23
        have h13 : cmpCell k.2 (r1.getD k.1 .na) (r3.getD k.1 .na) = .lt := by
          rw [← he]
          exact hc12
        simp only [cmpRow]
        rw [h13]
        simp
      · exfalso
        apply h23
        simp only [cmpRow]
        rw [hc23]
    · have he := cmpCell_eq_eq k.2 hc12
      have h12' : cmpRow rest r1 r2 ≠ .gt := by
        intro hg
        apply h12
        simp only [cmpRow]
        rw [hc12]
        exact hg
      rcases hc23 : cmpCell k.2 (r2.getD k.1 .na) (r3.getD k.1 .na) with _ | _ | _
      · have h13 : cmpCell k.2 (r1.getD k.1 .na) (r3.getD k.1 .na) = .lt := by
          rw [he]
          exact hc23
        simp only [cmpRow]
        rw [h13]
        simp
      · have h23' : cmpRow rest r2 r3 ≠ .gt := by
          intro hg
          apply h23
          simp only [cmpRow]
          rw [hc23]
          exact hg
        have h13cell : cmpCell k.2 (r1.getD k.1 .na) (r3.getD k.1 .na) = .eq := by
          rw [he]
          exact hc23
        have hres := ih h12' h23'
        simp only [cmpRow]
        rw [h13cell]
        exact hres
      · exfalso
        apply h23
        simp only [cmpRow]
        rw [hc23]
    · exfalso
      apply h12
      simp only [cmpRow]
      rw [hc12]

theorem rowLe_total (ks : List (Nat × Bool)) (a b : Int × Row) :
    rowLe ks a b ∨ rowLe ks b a := by
  unfold rowLe
  rcases hc : cmpRow ks a.2 b.2 with _ | _ | _
  · left
    simp
  · left
    simp
  · right
    have hsw := cmpRow_swap ks b.2 a.2
    rw [hc] at hsw
    rw [hsw]
    simp [Ordering.swap]

theorem rowLe_trans (ks : List (Nat × Bool)) (a b c : Int × Row) :
    rowLe ks a b → rowLe ks b c → rowLe ks a c :=
  fun h1 h2 => cmpRow_trans ks h1 h2

/-! ## Structural lemmas for `try_order_by` -/

theorem all_of_perm {α : Type} {p : α → Bool} {l l' : List α} (hp : l.Perm l') :
    l.all p = l'.all p := by
  by_cases h : l.all p = true
  · rw [h]
    symm
    rw [List.all_eq_true] at h ⊢
    exact fun x hx => h x (hp.mem_iff.2 hx)
  · have h' : l.all p = false := Bool.eq_false_iff.2 h
    rw [h']
    symm
    rw [List.all_eq_false] at h' ⊢
    obtain ⟨x, hx, hpx⟩ := h'
    exact ⟨x, hp.mem_iff.1 hx, hpx⟩

theorem colCells_perm (d d' : DF) (j : Nat) (hn : d.colNames = d'.colNames)
    (hp : d.rows.Perm d'.rows) : (d.colCells j).Perm (d'.colCells j) := by
  unfold DF.colCells
  exact hp.map _

theorem homogCol_eq_of_perm (d d' : DF) (j : Nat) (hn : d.colNames = d'.colNames)
    (hp : d.rows.Perm d'.rows) : d.homogCol j = d'.homogCol j := by
  unfold DF.homogCol
  rw [all_of_perm (colCells_perm d d' j hn hp), all_of_perm (colCells_perm d d' j hn hp)]

theorem indexFrom_length : ∀ (n : Nat) (l : List Row), (indexFrom n l).length = l.length
  | _, [] => rfl
  | n, r :: rs => by simp [indexFrom, indexFrom_length (n + 1) rs]

theorem mem_indexFrom : ∀ (n : Nat) (l : List Row) (q : Int × Row),
    q ∈ indexFrom n l → q.2 ∈ l := by
  intro n l
  induction l generalizing n with
  | nil => intro q hq; cases hq
  | cons r rs ih =>
    intro q hq
    rcases hq with _ | hq'
    · exact List.mem_cons_self _ _
    · exact List.mem_cons_of_mem _ (ih (n + 1) _ (by assumption))

theorem indexFrom_pairwise {S : Row → Row → Prop} :
    ∀ (n : Nat) (l : List Row), List.Pairwise S l →
      List.Pairwise (fun p q => S p.2 q.2) (indexFrom n l) := by
  intro n l
  induction l generalizing n with
  | nil => intro _; exact List.Pairwise.nil
  | cons r rs ih =>
    intro hp
    rcases hp with _ | ⟨hr, hrs⟩
    refine List.Pairwise.cons ?_ (ih (n + 1) hrs)
    intro q hq
    exact hr q.2 (mem_indexFrom (n + 1) rs q hq)

theorem map_snd_indexFrom {β : Type} (g : Row → β) :
    ∀ (n : Nat) (l : List Row), (indexFrom n l).map (fun q => g q.2) = l.map g
  | _, [] => rfl
  | n, r :: rs => by simp [indexFrom, map_snd_indexFrom g (n + 1) rs]

theorem cmpRow_shift : ∀ (ks : List (Nat × Bool)) (c1 c2 : Cell) (r1 r2 : Row),
    cmpRow (ks.map (fun k => (k.1 + 1, k.2))) (c1 :: r1) (c2 :: r2) = cmpRow ks r1 r2 := by
  intro ks
  induction ks with
  | nil => intro c1 c2 r1 r2; rfl
  | cons k rest ih =>
    intro c1 c2 r1 r2
    show (match cmpCell k.2 ((c1 :: r1).getD (k.1 + 1) .na) ((c2 :: r2).getD (k.1 + 1) .na) with
      | .eq => cmpRow (rest.map (fun t : Nat × Bool => (t.1 + 1, t.2))) (c1 :: r1) (c2 :: r2)
      | o => o) = _
    rw [List.getD_cons_succ, List.getD_cons_succ, ih c1 c2 r1 r2]
    rfl

theorem sortKeys_cons (nm : String) (names : List String) (rows2 rows1 : List (Int × Row))
    (cols : List String) (asc : List Bool) (hne : ∀ c ∈ cols, c ≠ nm) :
    sortKeys ⟨nm :: names, rows2⟩ cols asc =
      (sortKeys ⟨names, rows1⟩ cols asc).map (fun k => (k.1 + 1, k.2)) := by
  unfold sortKeys
  have hmap : cols.map (fun c => (nm :: names).indexOf c) =
      (cols.map (fun c => names.indexOf c)).map (fun j => j + 1) := by
    rw [List.map_map]
    apply List.map_congr_left
    intro c hc
    show (nm :: names).indexOf c = names.indexOf c + 1
    rw [List.indexOf_cons_ne names (Ne.symm (hne c hc))]
  rw [hmap, List.zip_map_left]
  apply List.map_congr_left
  intro k _
  rfl

theorem sortValues_ok (d : DF) (cols : List String) (asc : List Bool)
    (h1 : cols.all (fun c => d.colNames.contains c) = true)
    (h2 : asc.length = cols.length)
    (h3 : cols.all (fun c => d.homogCol (d.colNames.indexOf c)) = true) :
    sortValues d cols asc =
      .ok ⟨d.colNames, List.insertionSort (rowLe (sortKeys d cols asc)) d.rows⟩ := by
  unfold sortValues
  rw [if_neg (by rw [h1]; simp), if_neg (by simp [h2]), if_neg (by rw [h3]; simp)]

theorem resetIndex_fresh (d : DF) (hni : d.colNames.contains "index" = false) :
    resetIndex d = .ok ⟨"index" :: d.colNames,
      indexFrom 0 (d.rows.map (fun p => Cell.num (p.1 : ℚ) :: p.2))⟩ := by
  have h1 : "index" ∉ d.colNames := by simpa using hni
  simp [resetIndex, h1]

theorem resetIndex_level0 (d : DF) (hyes : d.colNames.contains "index" = true)
    (hno : d.colNames.contains "level_0" = false) :
    resetIndex d = .ok ⟨"level_0" :: d.colNames,
      indexFrom 0 (d.rows.map (fun p => Cell.num (p.1 : ℚ) :: p.2))⟩ := by
  have h1 : "index" ∈ d.colNames := by simpa using hyes
  have h2 : "level_0" ∉ d.colNames := by simpa using hno
  simp [resetIndex, h1, h2]

/-- Auxiliary computation: the column at position `j + 1` of a reset dataframe
is the column at position `j` of the dataframe before the reset (the old
index was prepended as a fresh first column). -/
theorem colCells_reset_aux (j : Nat) : ∀ (n : Nat) (rows : List (Int × Row)),
    (indexFrom n (rows.map (fun p => Cell.num (p.1 : ℚ) :: p.2))).map
      (fun q => q.2.getD (j + 1) Cell.na) = rows.map (fun p => p.2.getD j Cell.na)
  | _, [] => rfl
  | n, p :: ps => by
    simp only [List.map_cons, indexFrom, List.getD_cons_succ]
    rw [colCells_reset_aux j (n + 1) ps]

theorem homogCol_reset (nm : String) (names : List String) (rows : List (Int × Row)) (j : Nat) :
    DF.homogCol ⟨nm :: names, indexFrom 0 (rows.map (fun p => Cell.num (p.1 : ℚ) :: p.2))⟩
      (j + 1) = DF.homogCol ⟨names, rows⟩ j := by
  unfold DF.homogCol
  have hcc : DF.colCells ⟨nm :: names,
      indexFrom 0 (rows.map (fun p => Cell.num (p.1 : ℚ) :: p.2))⟩ (j + 1) =
      DF.colCells ⟨names, rows⟩ j := colCells_reset_aux j 0 rows
  rw [hcc]

/-- Counterexample to C4: `try_order_by(["a"], [true])` applied twice to a
valid populated handler is NOT idempotent — the second call succeeds but
yields a different table, because each call runs `.reset_index()`, which
inserts another materialized index column (`index`, then `level_0`). -/
theorem c4_counterexample_order_by_not_idempotent :
    (try_order_by (try_order_by hSort ["a"] [true]).1 ["a"] [true]).2.ok = true ∧
    (try_order_by (try_order_by hSort ["a"] [true]).1 ["a"] [true]).1.df? ≠
      (try_order_by hSort ["a"] [true]).1.df? :=
  ⟨by decide, by decide⟩

/-- C4 (amended): on a populated handler with valid homogeneously-typed sort
columns and matching direction flags (and no column already named `index` or
`level_0`), both the first and a repeated `try_order_by(cols, asc)` call
succeed, the final table's rows are sorted by `cols` per `asc` and the row
count equals the input row count; but the second call does NOT reproduce the
first call's table: each call's `reset_index()` prepends one more
materialized index column (`index` after the first call, `level_0` after the
second), so the two tables differ in schema. -/
theorem c4_amended_order_by_sorts_but_not_idempotent (h : BaseDataHandler) (d : DF)
    (cols : List String) (asc : List Bool) (hdf : h.df? = some d)
    (hsub : cols.all (fun c => d.colNames.contains c) = true)
    (hlen : asc.length = cols.length)
    (hhom : cols.all (fun c => d.homogCol (d.colNames.indexOf c)) = true)
    (hidx : d.colNames.contains "index" = false)
    (hlvl : d.colNames.contains "level_0" = false) :
    (try_order_by h cols asc).2.ok = true ∧
    (try_order_by (try_order_by h cols asc).1 cols asc).2.ok = true ∧
    ∃ d1 d2, (try_order_by h cols asc).1.df? = some d1 ∧
      (try_order_by (try_order_by h cols asc).1 cols asc).1.df? = some d2 ∧
      d1.colNames = "index" :: d.colNames ∧
      d2.colNames = "level_0" :: "index" :: d.colNames ∧
      d2.rows.length = d.rows.length ∧
      SortedBy d2 cols asc ∧
      d2 ≠ d1 := by
  set ks1 := sortKeys d cols asc with hks1
  set dS1 : DF := ⟨d.colNames, List.insertionSort (rowLe ks1) d.rows⟩ with hdS1
  have hsv1 : sortValues d cols asc = .ok dS1 := sortValues_ok d cols asc hsub hlen hhom
  set d1 : DF := ⟨"index" :: d.colNames,
    indexFrom 0 (dS1.rows.map (fun p => Cell.num (p.1 : ℚ) :: p.2))⟩ with hd1
  have hri1 : resetIndex dS1 = .ok d1 := resetIndex_fresh dS1 hidx
  have hcall1 : try_order_by h cols asc = ({ h with df? := some d1 }, ⟨true, none⟩) := by
    rw [try_order_by_some h d cols asc hdf, hsv1]
    show pyTry h (resetIndex dS1) = _
    rw [hri1]
    rfl
  have hperm1 : dS1.rows.Perm d.rows := List.perm_insertionSort _ _
  have hne_idx : ∀ c ∈ cols, c ≠ "index" := by
    intro c hc hceq
    have hmem := List.all_eq_true.1 hsub c hc
    rw [hceq, hidx] at hmem
    simp at hmem
  have hne_lvl : ∀ c ∈ cols, c ≠ "level_0" := by
    intro c hc hceq
    have hmem := List.all_eq_true.1 hsub c hc
    rw [hceq, hlvl] at hmem
    simp at hmem
  have hsub1 : cols.all (fun c => d1.colNames.contains c) = true := by
    rw [List.all_eq_true] at hsub ⊢
    intro c hc
    have hm : c ∈ d.colNames := by simpa using hsub c hc
    have : c ∈ d1.colNames := by
      rw [hd1]
      exact List.mem_cons_of_mem "index" hm
    simpa using this
  have hhom1 : cols.all (fun c => d1.homogCol (d1.colNames.indexOf c)) = true := by
    rw [List.all_eq_true] at hhom ⊢
    intro c hc
    have hidxOf : d1.colNames.indexOf c = d.colNames.indexOf c + 1 := by
      rw [hd1]
      show ("index" :: d.colNames).indexOf c = _
      rw [List.indexOf_cons_ne d.colNames (Ne.symm (hne_idx c hc))]
    rw [hidxOf, hd1]
    have hres := homogCol_reset "index" d.colNames dS1.rows (d.colNames.indexOf c)
    rw [hres]
    have hpe : DF.homogCol ⟨d.colNames, dS1.rows⟩ (d.colNames.indexOf c) =
        d.homogCol (d.colNames.indexOf c) :=
      homogCol_eq_of_perm ⟨d.colNames, dS1.rows⟩ d _ rfl hperm1
    rw [hpe]
    exact hhom c hc
  set ks2 := sortKeys d1 cols asc with hks2
  set dS2 : DF := ⟨d1.colNames, List.insertionSort (rowLe ks2) d1.rows⟩ with hdS2
  have hsv2 : sortValues d1 cols asc = .ok dS2 := sortValues_ok d1 cols asc hsub1 hlen hhom1
  have hidx1 : d1.colNames.contains "index" = true := by
    rw [hd1]
    show ("index" :: d.colNames).contains "index" = true
    exact List.elem_iff.2 (List.mem_cons_self _ _)
  have hlvl1 : d1.colNames.contains "level_0" = false := by
    rw [hd1]
    show ("index" :: d.colNames).contains "level_0" = false
    have hnm : "level_0" ∉ ("index" :: d.colNames) := by
      intro hm
      rcases List.mem_cons.1 hm with he | hm'
      · exact absurd he (by decide)
      · have hnl : "level_0" ∉ d.colNames := by simpa using hlvl
        exact hnl hm'
    simpa using hnm
  set d2 : DF := ⟨"level_0" :: d1.colNames,
    indexFrom 0 (dS2.rows.map (fun p => Cell.num (p.1 : ℚ) :: p.2))⟩ with hd2
  have hri2 : resetIndex dS2 = .ok d2 := resetIndex_level0 dS2 hidx1 hlvl1
  have hcall2 : try_order_by ({ h with df? := some d1 }) cols asc =
      ({ h with df? := some d2 }, ⟨true, none⟩) := by
    rw [try_order_by_some ({ h with df? := some d1 }) d1 cols asc rfl, hsv2]
    show pyTry _ (resetIndex dS2) = _
    rw [hri2]
    rfl
  have h1c : d1.colNames = "index" :: d.colNames := by rw [hd1]
  have h2c : d2.colNames = "level_0" :: "index" :: d.colNames := by rw [hd2, hd1]
  refine ⟨by rw [hcall1], by rw [hcall1, hcall2], d1, d2, by rw [hcall1], ?_, h1c, h2c, ?_, ?_, ?_⟩
  · show (try_order_by (try_order_by h cols asc).1 cols asc).1.df? = some d2
    rw [hcall1, hcall2]
  · -- row count preservation
    rw [hd2]
    show (indexFrom 0 (dS2.rows.map (fun p => Cell.num (p.1 : ℚ) :: p.2))).length = d.rows.length
    rw [indexFrom_length, List.length_map, hdS2]
    show (List.insertionSort (rowLe ks2) d1.rows).length = d.rows.length
    rw [List.length_insertionSort, hd1]
    show (indexFrom 0 (dS1.rows.map (fun p => Cell.num (p.1 : ℚ) :: p.2))).length = d.rows.length
    rw [indexFrom_length, List.length_map, hdS1]
    show (List.insertionSort (rowLe ks1) d.rows).length = d.rows.length
    rw [List.length_insertionSort]
  · -- the final table is sorted by cols per asc
    haveI : IsTotal (Int × Row) (rowLe ks2) := ⟨rowLe_total ks2⟩
    haveI : IsTrans (Int × Row) (rowLe ks2) := ⟨rowLe_trans ks2⟩
    have hp2 : List.Pairwise (rowLe ks2) (List.insertionSort (rowLe ks2) d1.rows) :=
      List.sorted_insertionSort (rowLe ks2) d1.rows
    have hkeys2 : sortKeys d2 cols asc = ks2.map (fun t => (t.1 + 1, t.2)) := by
      rw [hd2, hks2]
      exact sortKeys_cons "level_0" d1.colNames _ d1.rows cols asc hne_lvl
    have hp2' : List.Pairwise (rowLe ks2) dS2.rows := by
      rw [hdS2]
      exact hp2
    have hmap2 : List.Pairwise
        (fun r s : Row => cmpRow (ks2.map (fun t => (t.1 + 1, t.2))) r s ≠ Ordering.gt)
        (dS2.rows.map (fun p => Cell.num (p.1 : ℚ) :: p.2)) := by
      refine List.Pairwise.map _ (fun a b hab => ?_) hp2'
      show cmpRow (ks2.map (fun t => (t.1 + 1, t.2)))
        (Cell.num (a.1 : ℚ) :: a.2) (Cell.num (b.1 : ℚ) :: b.2) ≠ .gt
      rw [cmpRow_shift ks2 _ _ a.2 b.2]
      exact hab
    unfold SortedBy
    rw [hkeys2, hd2]
    exact @indexFrom_pairwise
      (fun r s : Row => cmpRow (ks2.map (fun t => (t.1 + 1, t.2))) r s ≠ Ordering.gt) 0
      (dS2.rows.map (fun p => Cell.num (p.1 : ℚ) :: p.2)) hmap2
  · -- the second table is not the first: it has one more column
    intro he
    have hcn : d2.colNames = d1.colNames := by rw [he]
    rw [h2c, h1c] at hcn
    have hln := congrArg List.length hcn
    simp at hln

/-- Witness for C4 (amended): both calls succeed on the two-row table. -/
theorem c4_amended_order_by_sorts_but_not_idempotent_witness :
    (try_order_by hSort ["a"] [true]).2.ok = true ∧
    (try_order_by (try_order_by hSort ["a"] [true]).1 ["a"] [true]).2.ok = true :=
  ⟨(c4_amended_order_by_sorts_but_not_idempotent hSort dfSort ["a"] [true] rfl
      (by decide) (by decide) (by decide) (by decide) (by decide)).1,
   (c4_amended_order_by_sorts_but_not_idempotent hSort dfSort ["a"] [true] rfl
      (by decide) (by decide) (by decide) (by decide) (by decide)).2.1⟩
